import Mathlib

/-!
Verification development for the phoenix-template backend.

The definitions below are a shallow embedding of the Python source under
`apps/backend/src/backend/`:
 - `services/langchain_service.py` (content generation client: request
   validation, prompt construction, response extraction, quality scoring,
   cost estimation),
 - `services/database_service.py` (client profile store: create / get /
   list, pipeline-run records),
 - `api/clients.py` and `api/pipeline.py` (HTTP error-to-status mapping
   and the pipeline generate endpoint).

Python strings are modelled by Lean `String` (the inputs of interest are
ASCII, where `Char.toLower`/`Char.toUpper` agree with Python `str.lower` /
`str.upper`).  Python floats in the scoring / cost heuristics only ever
take exact decimal values, so they are modelled by `ℚ`.  Wall-clock
timestamps (`created_at` / `completed_at` / `processing_time`) are outside
the embedding; a timestamp field that the code merely *sets* is modelled
by a `Bool` flag recording that it was set.
-/

namespace Phoenix

/-! ## String helpers mirroring Python built-ins (ASCII-faithful) -/

/-- Python whitespace used by `str.strip()` / `str.split()`:
space, tab, newline, carriage return, vertical tab, form feed. -/
def pyIsSpace (c : Char) : Bool :=
  c == ' ' || c == '\t' || c == '\n' || c == '\r' ||
    c == Char.ofNat 11 || c == Char.ofNat 12

/-- Python `str.lower()` (ASCII range). -/
def pyLower (s : String) : String :=
  String.mk (s.toList.map Char.toLower)

def dropLeadingWs : List Char → List Char
  | [] => []
  | c :: cs => if pyIsSpace c then dropLeadingWs cs else c :: cs

/-- Python `str.strip()`: remove leading and trailing whitespace. -/
def pyStrip (s : String) : String :=
  String.mk (((dropLeadingWs s.toList).reverse |> dropLeadingWs).reverse)

/-- Does the second list start with the first? -/
def startsWithL : List Char → List Char → Bool
  | [], _ => true
  | _ :: _, [] => false
  | a :: as, b :: bs => a == b && startsWithL as bs

def infixOfL (n : List Char) : List Char → Bool
  | [] => n.isEmpty
  | c :: t => startsWithL n (c :: t) || infixOfL n t

/-- Python `needle in hay` for strings (substring test; an empty needle
is contained in everything, as in Python). -/
def pyContains (hay needle : String) : Bool :=
  infixOfL needle.toList hay.toList

/-- Python `hay.count(c)` for a single-character pattern. -/
def countChar (s : String) (c : Char) : Nat :=
  s.toList.countP (fun x => x == c)

def splitWsAux : List Char → List Char → List String
  | [], acc => if acc.isEmpty then [] else [String.mk acc.reverse]
  | c :: cs, acc =>
    if pyIsSpace c then
      if acc.isEmpty then splitWsAux cs []
      else String.mk acc.reverse :: splitWsAux cs []
    else splitWsAux cs (c :: acc)

/-- Python `str.split()` with no argument: split on whitespace runs,
discarding empty pieces. -/
def pySplit (s : String) : List String :=
  splitWsAux s.toList []

/-- `key.replace('_', ' ')`. -/
def replaceUnderscores (s : String) : String :=
  String.mk (s.toList.map (fun c => if c == '_' then ' ' else c))

def isAsciiAlpha (c : Char) : Bool :=
  ('a' ≤ c && c ≤ 'z') || ('A' ≤ c && c ≤ 'Z')

def pyTitleAux : List Char → Bool → List Char
  | [], _ => []
  | c :: cs, prevAlpha =>
    if isAsciiAlpha c then
      (if prevAlpha then c.toLower else c.toUpper) :: pyTitleAux cs true
    else c :: pyTitleAux cs false

/-- Python `str.title()` (ASCII range): uppercase each letter that follows
a non-letter, lowercase the other letters. -/
def pyTitle (s : String) : String :=
  String.mk (pyTitleAux s.toList false)

/-- Python `"\n".join parts`. -/
def joinLines : List String → String
  | [] => ""
  | [s] => s
  | s :: rest => s ++ "\n" ++ joinLines rest

/-- Python `", ".join parts`. -/
def joinComma : List String → String
  | [] => ""
  | [s] => s
  | s :: rest => s ++ ", " ++ joinComma rest

/-! ## Data model (`models/client.py`)

Only the fields the verified operations read are carried; enumeration
fields (`status`, platforms, content types) are carried as their string
values, matching `use_enum_values=True` in the source models. -/

structure ServiceOffering where
  services : List String
  pricingTier : Option String := none
  deliveryMethod : Option String := none
  targetMarket : Option String := none
deriving DecidableEq

structure ICPProfile where
  industry : String
  companySize : String
  painPoints : List String
  budgetRange : Option String := none
deriving DecidableEq

structure ContentPreferences where
  platforms : List String
  frequency : String
  contentTypes : List String
  tone : Option String := none
deriving DecidableEq

/-- `ClientProfile` (database representation); `id` models the opaque
unique identifier the database assigns. -/
structure ClientProfile where
  id : Nat
  name : String
  email : String
  company : Option String := none
  serviceOffering : ServiceOffering
  icpProfile : ICPProfile
  positioningStatement : String
  contentPreferences : ContentPreferences
  additionalNotes : Option String := none
  status : String := "active"
deriving DecidableEq

/-- `ClientIntakeRequest` (intake form payload). -/
structure ClientIntakeRequest where
  name : String
  email : String
  company : Option String := none
  serviceOffering : ServiceOffering
  icpProfile : ICPProfile
  positioningStatement : String
  contentPreferences : ContentPreferences
  additionalNotes : Option String := none
deriving DecidableEq

/-- `ClientProfile.from_intake_request`, with the id the store assigns. -/
def clientProfileFromIntake (r : ClientIntakeRequest) (id : Nat) : ClientProfile :=
  { id := id
    name := r.name
    email := r.email
    company := r.company
    serviceOffering := r.serviceOffering
    icpProfile := r.icpProfile
    positioningStatement := r.positioningStatement
    contentPreferences := r.contentPreferences
    additionalNotes := r.additionalNotes
    status := "active" }

/-! ## Quality scoring (`LangChainService._calculate_quality_score`) -/

/-- The score before the final clamp.  The Python source accumulates into
a mutable `score` starting at `5.0`; the sequential `+=`/`-=` updates are
transcribed as one sum of the base and the six independent adjustments. -/
def rawQualityScore (content : String) (p : ClientProfile) : ℚ :=
  let base : ℚ := 5
  let lengthAdj : ℚ :=
    if content.length < 50 then -2          -- too short
    else if content.length > 2000 then -1   -- too long
    else if 100 ≤ content.length ∧ content.length ≤ 1000 then 1  -- good length
    else 0
  let contentLower := pyLower content
  let industryBonus : ℚ :=
    if pyContains contentLower (pyLower p.icpProfile.industry) then 1 else 0
  let serviceBonus : ℚ :=
    if (p.serviceOffering.services.map pyLower).any
        (fun s => pyContains contentLower s) then 1 else 0
  let positioningWords := pySplit (pyLower p.positioningStatement)
  let keyWords := positioningWords.filter (fun w => w.length > 4)
  let positioningBonus : ℚ :=
    if (keyWords.take 3).any (fun w => pyContains contentLower w) then 1/2 else 0
  let sentenceBonus : ℚ := if pyContains content "." then 1/2 else 0
  let structureBonus : ℚ := if 2 ≤ countChar content '\n' then 1/2 else 0
  base + lengthAdj + industryBonus + serviceBonus + positioningBonus +
    sentenceBonus + structureBonus

/-- Python `min(a, b)` on two arguments: keeps `a` unless `b` is smaller. -/
def pyMin (a b : ℚ) : ℚ := if b < a then b else a

/-- Python `max(a, b)` on two arguments: keeps `a` unless `b` is larger. -/
def pyMax (a b : ℚ) : ℚ := if a < b then b else a

/-- `_calculate_quality_score`: the raw score clamped into `[0, 10]` by
`max(0.0, min(10.0, score))`. -/
def calculateQualityScore (content : String) (p : ClientProfile) : ℚ :=
  pyMax 0 (pyMin 10 (rawQualityScore content p))

/-! ## Prompt construction (`_build_system_prompt`, `_build_user_prompt`)

The context mapping (`Dict[str, Any]`) is modelled as an association list
in insertion order; values are carried as strings, a value being Python
"truthy" exactly when it is non-empty. -/

/-- `_build_system_prompt`: a fixed template interpolating industry,
services, positioning, platforms, content types and tone. -/
def buildSystemPrompt (p : ClientProfile) : String :=
  let industry := p.icpProfile.industry
  let services := joinComma p.serviceOffering.services
  let positioning := p.positioningStatement
  let platforms := joinComma p.contentPreferences.platforms
  let contentTypes := joinComma p.contentPreferences.contentTypes
  let tone := p.contentPreferences.tone.getD "professional"
  "You are an expert content strategist and copywriter specializing in " ++
    industry ++ " companies.\n\nClient Context:\n- Industry: " ++ industry ++
    "\n- Services: " ++ services ++ "\n- Positioning: " ++ positioning ++
    "\n- Preferred Platforms: " ++ platforms ++ "\n- Content Types: " ++
    contentTypes ++ "\n- Tone: " ++ tone ++
    "\n\nYour role is to create high-quality, engaging content that:\n" ++
    "1. Aligns with the client's positioning and expertise\n" ++
    "2. Resonates with their target audience in the " ++ industry ++
    " industry\n3. Maintains the specified tone: " ++ tone ++
    "\n4. Follows best practices for the target platform\n" ++
    "5. Provides genuine value and insights\n\nAlways ensure content is:\n" ++
    "- Authentic and reflects the client's expertise\n" ++
    "- Relevant to their target audience's pain points\n" ++
    "- Actionable and valuable\n- Appropriately formatted for the platform\n" ++
    "- Free of generic marketing speak\n"

/-- `_build_user_prompt`: the raw prompt when the context mapping is
absent or contributes nothing, otherwise the prompt followed by an
"Additional Context" block with one `"<Title Cased Key>: <value>"` line
per truthy entry. -/
def buildUserPrompt (prompt : String) (context : List (String × String)) : String :=
  if context.isEmpty then prompt
  else
    let contextParts := (context.filter (fun kv => kv.2 != "")).map
      (fun kv => pyTitle (replaceUnderscores kv.1) ++ ": " ++ kv.2)
    if contextParts.isEmpty then prompt
    else prompt ++ "\n\nAdditional Context:\n" ++ joinLines contextParts

/-- Modelled from the spec's words for the comparison in the
user-prompt claim: "Builds a user prompt by appending, for every
non-empty entry in the optional context mapping, a line
`\"<Title Cased Key>: <value>\"`; if context is empty, the user prompt
equals the raw input prompt unchanged" — i.e. the entry lines directly
follow the prompt, with no separator block. -/
def buildUserPromptSpecLiteral (prompt : String) (context : List (String × String)) : String :=
  let lines := (context.filter (fun kv => kv.2 != "")).map
    (fun kv => pyTitle (replaceUnderscores kv.1) ++ ": " ++ kv.2)
  if lines.isEmpty then prompt
  else prompt ++ "\n" ++ joinLines lines

/-- The user-prompt construction as amended: everything the literal
reading has, plus the `"\n\nAdditional Context:\n"` separator the code
inserts before the entry lines. -/
def buildUserPromptAmendedSpec (prompt : String) (context : List (String × String)) : String :=
  let lines := (context.filter (fun kv => kv.2 != "")).map
    (fun kv => pyTitle (replaceUnderscores kv.1) ++ ": " ++ kv.2)
  if lines.isEmpty then prompt
  else prompt ++ "\n\nAdditional Context:\n" ++ joinLines lines

/-! ## Exceptions

One inductive covers the exception classes the embedded operations raise:
pydantic validation failures (`ValueError` raised by the request model's
validators), the Store's `ClientNotFoundError` / `DuplicateEmailError` /
base `DatabaseError`, the generation client's `LangChainError` (the
spec's `GenerationError`), and an unclassified fallback.  The Python
subclass relation `ClientNotFoundError, DuplicateEmailError <: DatabaseError`
is captured by `Exc.isDatabaseError`. -/

inductive Exc where
  | validationError (msg : String)
  | clientNotFound (msg : String)
  | duplicateEmail (msg : String)
  | databaseError (msg : String)
  | langChainError (msg : String)
  | otherError (msg : String)
deriving DecidableEq

def Exc.msg : Exc → String
  | .validationError m | .clientNotFound m | .duplicateEmail m
  | .databaseError m | .langChainError m | .otherError m => m

/-- `isinstance(e, DatabaseError)`: the two domain errors subclass it. -/
def Exc.isDatabaseError : Exc → Bool
  | .clientNotFound _ | .duplicateEmail _ | .databaseError _ => true
  | _ => false

deriving instance DecidableEq for Except

/-! ## Content generation client (`langchain_service.py`) -/

/-- `ContentGenerationRequest` after successful pydantic validation:
`content_type` and `prompt` are stored stripped, as the validators
return `v.strip()`. -/
structure ContentGenerationRequest where
  clientProfile : ClientProfile
  contentType : String
  prompt : String
  context : List (String × String) := []
  model : Option String := none
deriving DecidableEq

/-- Constructing a `ContentGenerationRequest`: pydantic checks
`min_length=1` and then the custom validators (non-empty after
stripping), field by field in declaration order, raising a validation
error (`ValueError`) on the first failure — before the generation client
runs at all. -/
def mkContentGenerationRequest (profile : ClientProfile) (contentType prompt : String)
    (context : List (String × String)) (model : Option String) :
    Except Exc ContentGenerationRequest :=
  if contentType.length < 1 then
    .error (.validationError "ensure this value has at least 1 characters")
  else if pyStrip contentType = "" then
    .error (.validationError "Content type cannot be empty")
  else if prompt.length < 1 then
    .error (.validationError "ensure this value has at least 1 characters")
  else if pyStrip prompt = "" then
    .error (.validationError "Prompt cannot be empty")
  else
    .ok { clientProfile := profile
          contentType := pyStrip contentType
          prompt := pyStrip prompt
          context := context
          model := model }

/-- One choice of the gateway response:
`choices[i].get("message", {}).get("content", "")`. -/
structure Choice where
  content : String
deriving DecidableEq

/-- The JSON body of a 200 gateway response:
`{choices: [...], usage: {total_tokens}}` (`usage.get("total_tokens", 0)`
defaults to 0). -/
structure ApiResponse where
  choices : List Choice
  totalTokens : Nat := 0
deriving DecidableEq

/-- Outcome of the single `_call_openrouter` HTTP call, as seen by
`generate_content`: a parsed 200 body, or one of the transport/protocol
failures `_call_openrouter` converts to `OpenRouterError` /
`ConnectionError` / `TimeoutError`. -/
inductive GatewayOutcome where
  | success (resp : ApiResponse)
  | httpError (statusCode : Nat) (body : String)
  | connectError
  | timeout
deriving DecidableEq

/-- `_extract_content_from_response`: first choice's message content,
stripped; `LangChainError` when there is no choice or the content strips
to nothing. -/
def extractContent (resp : ApiResponse) : Except Exc String :=
  match resp.choices with
  | [] => .error (.langChainError "Invalid response format: no choices found")
  | c :: _ =>
    let content := pyStrip c.content
    if content = "" then
      .error (.langChainError "Invalid response format: empty content")
    else .ok content

/-- `_estimate_cost`: `total_tokens / 1000` times a per-model rate,
`0.01` for unknown models. -/
def estimateCost (tokens : Nat) (model : String) : ℚ :=
  let rate : ℚ :=
    if model = "openai/gpt-4" then 3/100
    else if model = "openai/gpt-3.5-turbo" then 2/1000
    else if model = "anthropic/claude-3-haiku" then 25/100000
    else if model = "anthropic/claude-3-sonnet" then 3/1000
    else 1/100
  (tokens : ℚ) / 1000 * rate

/-- The response `generate_content` builds on success.  `processing_time`
is wall-clock and outside the embedding; the metadata dictionary is
carried as its individual entries. -/
structure ContentGenerationResponse where
  content : String
  qualityScore : ℚ
  modelUsed : String
  tokensUsed : Nat
  cost : ℚ
  systemPromptLength : Nat
  userPromptLength : Nat
deriving DecidableEq

/-- `generate_content` given the outcome of its one external call.
Every failure escapes as `LangChainError`: the transport errors through
their dedicated `except` clauses, and the `LangChainError` raised by
`_extract_content_from_response` through the final
`except Exception` clause, which wraps it once more. -/
def generateContent (defaultModel : String) (req : ContentGenerationRequest)
    (gw : GatewayOutcome) : Except Exc ContentGenerationResponse :=
  let systemPrompt := buildSystemPrompt req.clientProfile
  let userPrompt := buildUserPrompt req.prompt req.context
  -- `request.model or self.default_model`: Python `or` also rejects `""`.
  let model := match req.model with
    | some m => if m = "" then defaultModel else m
    | none => defaultModel
  match gw with
  | .httpError st body =>
    .error (.langChainError ("OpenRouter API error: OpenRouter API returned status " ++
      toString st ++ ": " ++ body))
  | .connectError =>
    .error (.langChainError "Connection error: Failed to connect to OpenRouter API")
  | .timeout =>
    .error (.langChainError "Request timed out: OpenRouter API request timed out")
  | .success resp =>
    match extractContent resp with
    | .error e =>
      .error (.langChainError ("Unexpected error during content generation: " ++ e.msg))
    | .ok content =>
      .ok { content := content
            qualityScore := calculateQualityScore content req.clientProfile
            modelUsed := model
            tokensUsed := resp.totalTokens
            cost := estimateCost resp.totalTokens model
            systemPromptLength := systemPrompt.length
            userPromptLength := userPrompt.length }

/-- The generate operation end to end: request validation (pydantic model
construction) followed by `generate_content`.  The second component
counts the external chat-completion calls made (`_call_openrouter` runs
exactly once per `generate_content` invocation, and not at all when
validation fails). -/
def generateOp (profile : ClientProfile) (contentType prompt : String)
    (context : List (String × String)) (model : Option String)
    (gw : GatewayOutcome) : Except Exc ContentGenerationResponse × Nat :=
  match mkContentGenerationRequest profile contentType prompt context model with
  | .error e => (.error e, 0)
  | .ok req => (generateContent "openai/gpt-4" req gw, 1)

/-- Is the outcome a `GenerationError` (`LangChainError`)? -/
def isGenerationError {α : Type} : Except Exc α → Bool
  | .error (.langChainError _) => true
  | _ => false

/-! ## Client profile store (`database_service.py`)

The hosted database is modelled by in-memory tables holding rows in
insertion order (the order the untouched `select` queries of the source
return them in), with the ids the database would assign tracked by
fresh-id counters. -/

/-- A `content_pipeline_runs` row.  `created_at`/`completed_at` are
wall-clock timestamps; `completedAt` records only whether the column was
written (`"completed_at": "now()"`). -/
structure PipelineRun where
  id : Nat
  clientId : Nat
  status : String
  stage : String
  inputContentType : String
  inputPrompt : String
  errorMessage : Option String := none
  completedAt : Bool := false
  draftContent : Option String := none
  qualityScore : Option ℚ := none
deriving DecidableEq

structure StoreState where
  clients : List ClientProfile := []
  runs : List PipelineRun := []
  nextClientId : Nat := 0
  nextRunId : Nat := 0
deriving DecidableEq

/-- `get_client_by_email`: first row with this exact email, if any. -/
def getClientByEmail (st : StoreState) (email : String) : Option ClientProfile :=
  st.clients.find? (fun c => c.email == email)

/-- `create_client`: explicit duplicate-email lookup first, then the
insert (under which the database assigns the id). -/
def createClient (st : StoreState) (intake : ClientIntakeRequest) :
    StoreState × Except Exc ClientProfile :=
  match getClientByEmail st intake.email with
  | some _ =>
    (st, .error (.duplicateEmail ("Client with email " ++ intake.email ++ " already exists")))
  | none =>
    let profile := clientProfileFromIntake intake st.nextClientId
    ({ st with clients := st.clients ++ [profile], nextClientId := st.nextClientId + 1 },
      .ok profile)

/-- `get_client_by_id`. -/
def getClientById (st : StoreState) (cid : Nat) : Except Exc ClientProfile :=
  match st.clients.find? (fun c => c.id == cid) with
  | none => .error (.clientNotFound ("Client with ID " ++ toString cid ++ " not found"))
  | some c => .ok c

/-- Does a client row match the `ilike '%search%'` filter across
name/email/company?  (`ilike` is case-insensitive substring; a NULL
company matches nothing.) -/
def matchesSearch (c : ClientProfile) (search : String) : Bool :=
  pyContains (pyLower c.name) (pyLower search) ||
  pyContains (pyLower c.email) (pyLower search) ||
  (match c.company with
   | some co => pyContains (pyLower co) (pyLower search)
   | none => false)

structure ClientsListResult where
  clients : List ClientProfile
  total : Nat
  page : Nat
  pageSize : Nat
deriving DecidableEq

/-- `get_clients_list`: offset `(page-1)*page_size`, inclusive range
`[offset, offset+page_size-1]` over the (optionally search-filtered)
rows, plus the exact filtered count. -/
def getClientsList (st : StoreState) (page pageSize : Nat)
    (search : Option String) : ClientsListResult :=
  let offset := (page - 1) * pageSize
  let rows := match search with
    | some s => st.clients.filter (fun c => matchesSearch c s)
    | none => st.clients
  { clients := (rows.drop offset).take pageSize
    total := rows.length
    page := page
    pageSize := pageSize }

/-- `create_pipeline_run`: insert a `pending` row, returning its id. -/
def createPipelineRun (st : StoreState) (cid : Nat) (contentType prompt stage : String) :
    StoreState × Nat :=
  let run : PipelineRun :=
    { id := st.nextRunId, clientId := cid, status := "pending", stage := stage
      inputContentType := contentType, inputPrompt := prompt }
  ({ st with runs := st.runs ++ [run], nextRunId := st.nextRunId + 1 }, st.nextRunId)

/-- `update_pipeline_run` with the failure updates the pipeline endpoint
sends: `status="failed"`, `error_message`, `completed_at="now()"`. -/
def updateRunFailed (st : StoreState) (runId : Nat) (msg : String) : StoreState :=
  { st with runs := st.runs.map (fun r =>
      if r.id == runId then
        { r with status := "failed", errorMessage := some msg, completedAt := true }
      else r) }

/-- `update_pipeline_run` with the success updates the pipeline endpoint
sends: `status="completed"`, stage, draft content, quality score,
`completed_at="now()"` (model-call metadata and the integer processing
time are timing-dependent and not carried on the row model). -/
def updateRunCompleted (st : StoreState) (runId : Nat)
    (resp : ContentGenerationResponse) : StoreState :=
  { st with runs := st.runs.map (fun r =>
      if r.id == runId then
        { r with status := "completed", stage := "content_generation",
                 draftContent := some resp.content,
                 qualityScore := some resp.qualityScore, completedAt := true }
      else r) }

/-! ## HTTP surface (`api/clients.py`, `api/pipeline.py`)

Each endpoint's `except` cascade is compiled to a total map from the
raised exception to the `HTTPException` produced, clause by clause in
source order (an exception is handled by the first clause whose class
matches; `ClientNotFoundError` and `DuplicateEmailError` match
`except DatabaseError` clauses). -/

structure HttpError where
  statusCode : Nat
  detail : String
deriving DecidableEq

/-- `GET /api/clients/{id}`: `ClientNotFoundError` → 404, then
`DatabaseError` → 500, then `Exception` → 500. -/
def getClientErrorStatus : Exc → HttpError
  | .clientNotFound m => ⟨404, m⟩
  | .duplicateEmail m => ⟨500, "Database error: " ++ m⟩
  | .databaseError m => ⟨500, "Database error: " ++ m⟩
  | .validationError _ => ⟨500, "An internal server error occurred"⟩
  | .langChainError _ => ⟨500, "An internal server error occurred"⟩
  | .otherError _ => ⟨500, "An internal server error occurred"⟩

/-- `PUT /api/clients/{id}`: same cascade as the get endpoint. -/
def updateClientErrorStatus : Exc → HttpError
  | .clientNotFound m => ⟨404, m⟩
  | .duplicateEmail m => ⟨500, "Database error: " ++ m⟩
  | .databaseError m => ⟨500, "Database error: " ++ m⟩
  | .validationError _ => ⟨500, "An internal server error occurred"⟩
  | .langChainError _ => ⟨500, "An internal server error occurred"⟩
  | .otherError _ => ⟨500, "An internal server error occurred"⟩

/-- `DELETE /api/clients/{id}`: same cascade as the get endpoint. -/
def deleteClientErrorStatus : Exc → HttpError
  | .clientNotFound m => ⟨404, m⟩
  | .duplicateEmail m => ⟨500, "Database error: " ++ m⟩
  | .databaseError m => ⟨500, "Database error: " ++ m⟩
  | .validationError _ => ⟨500, "An internal server error occurred"⟩
  | .langChainError _ => ⟨500, "An internal server error occurred"⟩
  | .otherError _ => ⟨500, "An internal server error occurred"⟩

/-- `POST /api/clients/intake`: `DuplicateEmailError` → 409, then
`DatabaseError` → 500, then `Exception` → 500 (there is no
`ClientNotFoundError` clause, so it falls to the `DatabaseError` one). -/
def createClientIntakeErrorStatus : Exc → HttpError
  | .duplicateEmail m => ⟨409, m⟩
  | .clientNotFound m => ⟨500, "Database error: " ++ m⟩
  | .databaseError m => ⟨500, "Database error: " ++ m⟩
  | .validationError _ => ⟨500, "An internal server error occurred"⟩
  | .langChainError _ => ⟨500, "An internal server error occurred"⟩
  | .otherError _ => ⟨500, "An internal server error occurred"⟩

/-- `GET /api/clients`: `DatabaseError` → 500, then `Exception` → 500. -/
def listClientsErrorStatus : Exc → HttpError
  | .clientNotFound m => ⟨500, "Database error: " ++ m⟩
  | .duplicateEmail m => ⟨500, "Database error: " ++ m⟩
  | .databaseError m => ⟨500, "Database error: " ++ m⟩
  | .validationError _ => ⟨500, "An internal server error occurred"⟩
  | .langChainError _ => ⟨500, "An internal server error occurred"⟩
  | .otherError _ => ⟨500, "An internal server error occurred"⟩

/-- `POST /api/pipeline/generate`: `DatabaseError` → 500 (this clause
comes first, so `ClientNotFoundError` lands here, not on a 404), then
`LangChainError` → 500, then `Exception` → 500. -/
def pipelineGenerateErrorStatus : Exc → HttpError
  | .clientNotFound m => ⟨500, "Database error: " ++ m⟩
  | .duplicateEmail m => ⟨500, "Database error: " ++ m⟩
  | .databaseError m => ⟨500, "Database error: " ++ m⟩
  | .langChainError m => ⟨500, "Content generation error: " ++ m⟩
  | .validationError _ => ⟨500, "An internal server error occurred"⟩
  | .otherError _ => ⟨500, "An internal server error occurred"⟩

/-- Result of the pipeline generate endpoint: 201 with the generated
payload, or an `HTTPException`. -/
inductive HttpResponse where
  | created (content : String) (qualityScore : ℚ)
  | httpExc (e : HttpError)
deriving DecidableEq

/-- `POST /api/pipeline/generate` (`api/pipeline.py::generate_content`):
load the profile, create a `pending` run, validate and run generation,
then write the run back.  The failed-run write-back happens in the
`except LangChainError` and `except Exception` clauses, guarded by
`'pipeline_run_id' in locals()` — so never on the profile-load failure,
which precedes run creation.  (For a pydantic validation failure the
write-back records `str(e)`; the row model carries the validator's
message for it.) -/
def pipelineGenerateEndpoint (st : StoreState) (clientId : Nat)
    (contentType prompt : String) (context : List (String × String))
    (model : Option String) (gw : GatewayOutcome) : StoreState × HttpResponse :=
  match getClientById st clientId with
  | .error e => (st, .httpExc (pipelineGenerateErrorStatus e))
  | .ok profile =>
    let (st1, runId) := createPipelineRun st clientId contentType prompt "content_generation"
    match mkContentGenerationRequest profile contentType prompt context model with
    | .error e =>
      (updateRunFailed st1 runId e.msg, .httpExc (pipelineGenerateErrorStatus e))
    | .ok req =>
      match generateContent "openai/gpt-4" req gw with
      | .error e =>
        (updateRunFailed st1 runId e.msg, .httpExc (pipelineGenerateErrorStatus e))
      | .ok resp =>
        (updateRunCompleted st1 runId resp, .created resp.content resp.qualityScore)

/-! ## Concrete fixtures used by counterexamples and witnesses -/

/-- The profile of the spec's worked scoring example: ICP industry
"Widgets"; services and positioning words chosen so that none of them
occurs in the example content, as the claim stipulates. -/
def exWidgetsProfile : ClientProfile :=
  { id := 1
    name := "Acme Widget Co"
    email := "acme@example.com"
    serviceOffering := { services := ["consulting"] }
    icpProfile := { industry := "Widgets", companySize := "10-50"
                    painPoints := ["low reach"] }
    positioningStatement := "Premier consulting partners"
    contentPreferences := { platforms := ["linkedin"], frequency := "weekly"
                            contentTypes := ["educational"] } }

/-- The exact content string of the spec's worked scoring example
(38 characters, two newline characters). -/
def exWidgetsContent : String := "Widgets help you grow. \n\nMore widgets."

/-- Two profiles that agree on every field the scoring heuristic reads
(industry, services, positioning statement) but differ elsewhere. -/
def exScoreProfileA : ClientProfile :=
  { exWidgetsProfile with name := "Alice", email := "alice@example.com", id := 10 }

def exScoreProfileB : ClientProfile :=
  { exWidgetsProfile with
    name := "Bob"
    email := "bob@example.com"
    id := 11
    contentPreferences := { platforms := ["blog"], frequency := "daily",
                            contentTypes := ["news"], tone := some "witty" } }

/-- A store holding one client profile for the pipeline-endpoint witness. -/
def exStoreOne : StoreState :=
  { clients := [exWidgetsProfile], nextClientId := 2, nextRunId := 0 }

/-- A store already containing the email "a@b.com". -/
def exClientAB : ClientProfile :=
  { exWidgetsProfile with id := 3, name := "AB", email := "a@b.com" }

def exStoreAB : StoreState :=
  { clients := [exClientAB], nextClientId := 4 }

/-- An intake request re-using the stored email "a@b.com". -/
def exIntakeDup : ClientIntakeRequest :=
  { name := "Other Person"
    email := "a@b.com"
    serviceOffering := { services := ["seo"] }
    icpProfile := { industry := "Retail", companySize := "1-10", painPoints := ["churn"] }
    positioningStatement := "The best retail growth partner around"
    contentPreferences := { platforms := ["newsletter"], frequency := "monthly",
                            contentTypes := ["promotional"] } }

/-- The `i`-th of twelve distinct stored clients, in creation order. -/
def mkStoredClient (i : Nat) : ClientProfile :=
  { exWidgetsProfile with
    id := i
    name := "Client " ++ toString i
    email := "client" ++ toString i ++ "@example.com" }

/-- A store holding exactly 12 clients in creation order. -/
def exStore12 : StoreState :=
  { clients := (List.range 12).map mkStoredClient, nextClientId := 12 }

/-- The message under which the empty-choices failure escapes
`generate_content` (the extractor's `LangChainError` re-wrapped by the
final `except Exception` clause). -/
def invalidChoicesMsg : String :=
  "Unexpected error during content generation: Invalid response format: no choices found"

/-- A validated generation request against the widgets profile, for the
pipeline witness. -/
def exGenRequest : ContentGenerationRequest :=
  { clientProfile := exWidgetsProfile
    contentType := "linkedin_post"
    prompt := "Write a post" }

/-- `x` is an integer multiple of one half. -/
def IsHalfIntMult (x : ℚ) : Prop := ∃ k : ℤ, x = (k : ℚ) / 2

/-! ## Helper lemmas -/

lemma isHalf_add {x y : ℚ} (hx : IsHalfIntMult x) (hy : IsHalfIntMult y) :
    IsHalfIntMult (x + y) := by
  obtain ⟨a, ha⟩ := hx
  obtain ⟨b, hb⟩ := hy
  exact ⟨a + b, by rw [ha, hb]; push_cast; ring⟩

lemma isHalf_ite (c : Prop) [Decidable c] {x y : ℚ}
    (hx : IsHalfIntMult x) (hy : IsHalfIntMult y) :
    IsHalfIntMult (if c then x else y) := by
  by_cases h : c <;> simp [h, hx, hy]

lemma isHalf_five : IsHalfIntMult 5 := ⟨10, by norm_num⟩

lemma isHalf_one : IsHalfIntMult 1 := ⟨2, by norm_num⟩

lemma isHalf_zero : IsHalfIntMult 0 := ⟨0, by norm_num⟩

lemma isHalf_neg2 : IsHalfIntMult (-2) := ⟨-4, by norm_num⟩

lemma isHalf_neg1 : IsHalfIntMult (-1) := ⟨-2, by norm_num⟩

lemma isHalf_half : IsHalfIntMult (1/2) := ⟨1, by norm_num⟩

/-- The un-clamped score is always an integer multiple of one half. -/
lemma rawQualityScore_isHalf (content : String) (p : ClientProfile) :
    IsHalfIntMult (rawQualityScore content p) := by
  simp only [rawQualityScore]
  exact isHalf_add (isHalf_add (isHalf_add (isHalf_add (isHalf_add
    (isHalf_add isHalf_five
      (isHalf_ite _ isHalf_neg2 (isHalf_ite _ isHalf_neg1 (isHalf_ite _ isHalf_one isHalf_zero))))
    (isHalf_ite _ isHalf_one isHalf_zero))
    (isHalf_ite _ isHalf_one isHalf_zero))
    (isHalf_ite _ isHalf_half isHalf_zero))
    (isHalf_ite _ isHalf_half isHalf_zero))
    (isHalf_ite _ isHalf_half isHalf_zero)

/-- The un-clamped score lies in `[3, 9.5]`: the worst case subtracts 2
from the base 5, the best adds `1 + 1 + 1 + ½ + ½ + ½`. -/
lemma rawQualityScore_bounds (content : String) (p : ClientProfile) :
    3 ≤ rawQualityScore content p ∧ rawQualityScore content p ≤ 19/2 := by
  simp only [rawQualityScore]
  split_ifs <;> norm_num

/-- The clamp `max(0, min(10, ·))` leaves the raw score unchanged. -/
lemma calculateQualityScore_eq_raw (content : String) (p : ClientProfile) :
    calculateQualityScore content p = rawQualityScore content p := by
  have hb := rawQualityScore_bounds content p
  unfold calculateQualityScore pyMax pyMin
  split_ifs <;> first | rfl | linarith

/-- Evaluation of the scoring heuristic on the spec's worked example:
38 characters (< 50, −2), industry match (+1), no service or
positioning-word match, a period (+½), two newlines (+½). -/
lemma exWidgets_score : calculateQualityScore exWidgetsContent exWidgetsProfile = 5 := by
  have h1 : exWidgetsContent.length < 50 := by decide
  have h2 : pyContains (pyLower exWidgetsContent)
      (pyLower exWidgetsProfile.icpProfile.industry) = true := by decide
  have h3 : (exWidgetsProfile.serviceOffering.services.map pyLower).any
      (fun s => pyContains (pyLower exWidgetsContent) s) = false := by decide
  have h4 : (((pySplit (pyLower exWidgetsProfile.positioningStatement)).filter
      (fun w => w.length > 4)).take 3).any
      (fun w => pyContains (pyLower exWidgetsContent) w) = false := by decide
  have h5 : pyContains exWidgetsContent "." = true := by decide
  have h6 : 2 ≤ countChar exWidgetsContent '\n' := by decide
  simp only [calculateQualityScore, rawQualityScore, h1, h2, h3, h4, h5, h6,
    if_true, if_false, pyMin, pyMax]
  norm_num

lemma find?_some_of_mem {α : Type} {p : α → Bool} {l : List α} {x : α}
    (hx : x ∈ l) (hpx : p x = true) : ∃ y, l.find? p = some y := by
  induction l with
  | nil => cases hx
  | cons a t ih =>
    by_cases ha : p a = true
    · exact ⟨a, by simp [List.find?, ha]⟩
    · cases hx with
      | head => exact absurd hpx ha
      | tail _ hmem =>
        obtain ⟨y, hy⟩ := ih hmem
        exact ⟨y, by simp only [List.find?]; rw [Bool.of_not_eq_true ha]; exact hy⟩

/-- `generate_content` on a gateway body with `choices: []`. -/
lemma generateContent_emptyChoices (dm : String) (req : ContentGenerationRequest)
    (resp : ApiResponse) (hc : resp.choices = []) :
    generateContent dm req (.success resp) = .error (.langChainError invalidChoicesMsg) := by
  simp only [generateContent, extractContent, hc, Exc.msg]
  rfl

/-! ## Claim theorems -/

/-- C1 (counterexample): on the exact content
`"Widgets help you grow. \n\nMore widgets."` and a profile with ICP
industry `"Widgets"` and no service/positioning match, the computed
quality score is not 7.0 — the claim's predicted value fails on the
code, because the 38-character content takes the `< 50` penalty of 2.0
the claim's arithmetic omits. -/
theorem claimC1_counterexample :
    calculateQualityScore exWidgetsContent exWidgetsProfile ≠ 7 := by
  rw [exWidgets_score]
  norm_num

/-- C1 (amended): on that exact content and profile the computed quality
score equals 5.0: base 5.0, −2.0 for length 38 < 50, +1.0 industry
match, +0.5 period, +0.5 two newlines, and no length/service/positioning
bonus. -/
theorem claimC1_amended :
    calculateQualityScore exWidgetsContent exWidgetsProfile = 5 :=
  exWidgets_score

/-- C2 (counterexample): the pipeline generate endpoint translates a
`ClientNotFoundError` raised by the Store into a 500 response (its
`except DatabaseError` clause fires first), not the 404 the claim
asserts for every endpoint of the surface. -/
theorem claimC2_counterexample :
    pipelineGenerateErrorStatus (.clientNotFound "Client with ID 7 not found") =
      ⟨500, "Database error: Client with ID 7 not found"⟩ ∧
    (pipelineGenerateErrorStatus
      (.clientNotFound "Client with ID 7 not found")).statusCode ≠ 404 := by
  constructor <;> decide

/-- C2 (amended): the client get/update/delete endpoints translate
`NotFoundError` to 404 and the intake endpoint translates
`DuplicateEmailError` to 409, with every other failure mapped to a
generic 500 — but the pipeline generate endpoint maps every failure,
`NotFoundError` included, to 500. -/
theorem claimC2_amended : ∀ m : String,
    (getClientErrorStatus (.clientNotFound m) = ⟨404, m⟩ ∧
     getClientErrorStatus (.duplicateEmail m) = ⟨500, "Database error: " ++ m⟩ ∧
     getClientErrorStatus (.databaseError m) = ⟨500, "Database error: " ++ m⟩ ∧
     getClientErrorStatus (.langChainError m) = ⟨500, "An internal server error occurred"⟩ ∧
     getClientErrorStatus (.otherError m) = ⟨500, "An internal server error occurred"⟩) ∧
    (updateClientErrorStatus (.clientNotFound m) = ⟨404, m⟩ ∧
     updateClientErrorStatus (.duplicateEmail m) = ⟨500, "Database error: " ++ m⟩ ∧
     updateClientErrorStatus (.databaseError m) = ⟨500, "Database error: " ++ m⟩ ∧
     updateClientErrorStatus (.langChainError m) = ⟨500, "An internal server error occurred"⟩ ∧
     updateClientErrorStatus (.otherError m) = ⟨500, "An internal server error occurred"⟩) ∧
    (deleteClientErrorStatus (.clientNotFound m) = ⟨404, m⟩ ∧
     deleteClientErrorStatus (.duplicateEmail m) = ⟨500, "Database error: " ++ m⟩ ∧
     deleteClientErrorStatus (.databaseError m) = ⟨500, "Database error: " ++ m⟩ ∧
     deleteClientErrorStatus (.langChainError m) = ⟨500, "An internal server error occurred"⟩ ∧
     deleteClientErrorStatus (.otherError m) = ⟨500, "An internal server error occurred"⟩) ∧
    (createClientIntakeErrorStatus (.duplicateEmail m) = ⟨409, m⟩ ∧
     createClientIntakeErrorStatus (.clientNotFound m) = ⟨500, "Database error: " ++ m⟩ ∧
     createClientIntakeErrorStatus (.databaseError m) = ⟨500, "Database error: " ++ m⟩ ∧
     createClientIntakeErrorStatus (.langChainError m) = ⟨500, "An internal server error occurred"⟩ ∧
     createClientIntakeErrorStatus (.otherError m) = ⟨500, "An internal server error occurred"⟩) ∧
    (listClientsErrorStatus (.clientNotFound m) = ⟨500, "Database error: " ++ m⟩ ∧
     listClientsErrorStatus (.duplicateEmail m) = ⟨500, "Database error: " ++ m⟩ ∧
     listClientsErrorStatus (.databaseError m) = ⟨500, "Database error: " ++ m⟩ ∧
     listClientsErrorStatus (.langChainError m) = ⟨500, "An internal server error occurred"⟩ ∧
     listClientsErrorStatus (.otherError m) = ⟨500, "An internal server error occurred"⟩) ∧
    (pipelineGenerateErrorStatus (.clientNotFound m) = ⟨500, "Database error: " ++ m⟩ ∧
     pipelineGenerateErrorStatus (.duplicateEmail m) = ⟨500, "Database error: " ++ m⟩ ∧
     pipelineGenerateErrorStatus (.databaseError m) = ⟨500, "Database error: " ++ m⟩ ∧
     pipelineGenerateErrorStatus (.langChainError m) = ⟨500, "Content generation error: " ++ m⟩ ∧
     pipelineGenerateErrorStatus (.otherError m) = ⟨500, "An internal server error occurred"⟩) :=
  fun _ => ⟨⟨rfl, rfl, rfl, rfl, rfl⟩, ⟨rfl, rfl, rfl, rfl, rfl⟩, ⟨rfl, rfl, rfl, rfl, rfl⟩,
    ⟨rfl, rfl, rfl, rfl, rfl⟩, ⟨rfl, rfl, rfl, rfl, rfl⟩, ⟨rfl, rfl, rfl, rfl, rfl⟩⟩

/-- C3 (counterexample): a request whose content type is `" "` (empty
after trimming) fails at pydantic request construction with a
`ValueError` from the field validator — a validation error, not a
`GenerationError` (`LangChainError`) — and no external call is made. -/
theorem claimC3_counterexample :
    isGenerationError (generateOp exWidgetsProfile " " "Write a post" [] none
        (.success ⟨[], 0⟩)).1 = false ∧
    (generateOp exWidgetsProfile " " "Write a post" [] none (.success ⟨[], 0⟩)).1 =
      .error (.validationError "Content type cannot be empty") ∧
    (generateOp exWidgetsProfile " " "Write a post" [] none (.success ⟨[], 0⟩)).2 = 0 :=
  ⟨by decide, by decide, by decide⟩

/-- C3 (amended): for every generation request whose content type or
prompt is empty after trimming, the operation fails with a validation
error raised at request construction (not a `GenerationError`), and the
failure occurs before any call to the external chat-completion endpoint
is made. -/
theorem claimC3_amended (profile : ClientProfile) (ct pr : String)
    (ctx : List (String × String)) (mdl : Option String) (gw : GatewayOutcome)
    (h : pyStrip ct = "" ∨ pyStrip pr = "") :
    (∃ m, (generateOp profile ct pr ctx mdl gw).1 = .error (.validationError m)) ∧
    (generateOp profile ct pr ctx mdl gw).2 = 0 := by
  unfold generateOp mkContentGenerationRequest
  split_ifs with h1 h2 h3 h4
  · exact ⟨⟨_, rfl⟩, rfl⟩
  · exact ⟨⟨_, rfl⟩, rfl⟩
  · exact ⟨⟨_, rfl⟩, rfl⟩
  · exact ⟨⟨_, rfl⟩, rfl⟩
  · exfalso
    rcases h with h | h
    · exact h2 h
    · exact h4 h

/-- C3 (witness): the amended theorem applied at content type `""`,
prompt `"hi"` and a timeout gateway. -/
theorem claimC3_amended_witness :
    (∃ m, (generateOp exWidgetsProfile "" "hi" [] none .timeout).1 =
      .error (.validationError m)) ∧
    (generateOp exWidgetsProfile "" "hi" [] none .timeout).2 = 0 :=
  claimC3_amended exWidgetsProfile "" "hi" [] none .timeout (Or.inl (by decide))

/-- C4: a generation call whose gateway response has an empty `choices`
list fails with a `GenerationError` (`LangChainError`) whose message
mentions "Invalid response format", and when the pipeline endpoint had
already created a run for the call, that run is updated to status
`"failed"` with the error message and a completion timestamp recorded
(it is the last run row of the resulting store). -/
theorem claimC4 :
    (∀ (dm : String) (req : ContentGenerationRequest) (resp : ApiResponse),
      resp.choices = [] →
      generateContent dm req (.success resp) =
        .error (.langChainError invalidChoicesMsg) ∧
      pyContains invalidChoicesMsg "Invalid response format" = true) ∧
    (∀ (st : StoreState) (cid : Nat) (ct pr : String)
      (ctx : List (String × String)) (mdl : Option String) (resp : ApiResponse)
      (profile : ClientProfile) (req : ContentGenerationRequest),
      resp.choices = [] →
      getClientById st cid = .ok profile →
      mkContentGenerationRequest profile ct pr ctx mdl = .ok req →
      (pipelineGenerateEndpoint st cid ct pr ctx mdl (.success resp)).1.runs.getLast? =
        some { id := st.nextRunId, clientId := cid, status := "failed",
               stage := "content_generation", inputContentType := ct, inputPrompt := pr,
               errorMessage := some invalidChoicesMsg, completedAt := true } ∧
      (pipelineGenerateEndpoint st cid ct pr ctx mdl (.success resp)).2 =
        .httpExc ⟨500, "Content generation error: " ++ invalidChoicesMsg⟩) := by
  constructor
  · intro dm req resp hc
    exact ⟨generateContent_emptyChoices dm req resp hc, by decide⟩
  · intro st cid ct pr ctx mdl resp profile req hc hfind hreq
    have hgen := generateContent_emptyChoices "openai/gpt-4" req resp hc
    simp only [pipelineGenerateEndpoint, hfind, hreq, hgen, createPipelineRun,
      updateRunFailed, Exc.msg, pipelineGenerateErrorStatus]
    constructor
    · simp only [List.map_append, List.map_cons, List.map_nil, List.getLast?_concat,
        beq_self_eq_true, if_true]
    · trivial

/-- C4 (witness): the theorem applied to a one-client store, a valid
request against client 1 and a gateway body with `choices: []`. -/
theorem claimC4_witness :
    generateContent "openai/gpt-4" exGenRequest (.success ⟨[], 0⟩) =
      .error (.langChainError invalidChoicesMsg) ∧
    (pipelineGenerateEndpoint exStoreOne 1 "linkedin_post" "Write a post" [] none
        (.success ⟨[], 0⟩)).1.runs.getLast? =
      some { id := 0, clientId := 1, status := "failed",
             stage := "content_generation", inputContentType := "linkedin_post",
             inputPrompt := "Write a post",
             errorMessage := some invalidChoicesMsg, completedAt := true } :=
  ⟨(claimC4.1 "openai/gpt-4" exGenRequest ⟨[], 0⟩ rfl).1,
   (claimC4.2 exStoreOne 1 "linkedin_post" "Write a post" [] none ⟨[], 0⟩
      exWidgetsProfile exGenRequest rfl (by decide) (by decide)).1⟩

/-- C5: for every content string and every client profile, the computed
quality score lies in the closed interval `[0, 10]`. -/
theorem claimC5 (content : String) (p : ClientProfile) :
    0 ≤ calculateQualityScore content p ∧ calculateQualityScore content p ≤ 10 := by
  unfold calculateQualityScore pyMax pyMin
  split_ifs <;> constructor <;> linarith

/-- C6: the quality score is a pure function of the content and of the
profile fields it reads — two profiles agreeing on industry, services
and positioning statement yield the same score on the same content,
whatever their other fields. -/
theorem claimC6 (content : String) (p₁ p₂ : ClientProfile)
    (hInd : p₁.icpProfile.industry = p₂.icpProfile.industry)
    (hSvc : p₁.serviceOffering.services = p₂.serviceOffering.services)
    (hPos : p₁.positioningStatement = p₂.positioningStatement) :
    calculateQualityScore content p₁ = calculateQualityScore content p₂ := by
  simp only [calculateQualityScore, rawQualityScore, hInd, hSvc, hPos]

/-- C6 (witness): the theorem applied to two profiles differing in name,
email, id and content preferences but agreeing on the scored fields. -/
theorem claimC6_witness :
    calculateQualityScore "Great widgets. Truly." exScoreProfileA =
      calculateQualityScore "Great widgets. Truly." exScoreProfileB :=
  claimC6 "Great widgets. Truly." exScoreProfileA exScoreProfileB rfl rfl rfl

/-- C7 (counterexample): on prompt `"p"` and the one-entry context
`topic ↦ x`, the built user prompt is not the prompt with just the
appended entry line — the code inserts an `"Additional Context:"`
separator block first. -/
theorem claimC7_counterexample :
    buildUserPrompt "p" [("topic", "x")] ≠ buildUserPromptSpecLiteral "p" [("topic", "x")] ∧
    buildUserPrompt "p" [("topic", "x")] = "p\n\nAdditional Context:\nTopic: x" := by
  constructor <;> decide

/-- C7 (amended): when the context mapping is empty or every entry's
value is empty, the built user prompt is the raw prompt unchanged;
otherwise it is the prompt followed by the separator
`"\n\nAdditional Context:\n"` and one line `"<Title Cased Key>: <value>"`
per non-empty entry, joined by newlines. -/
theorem claimC7_amended :
    (∀ (prompt : String) (context : List (String × String)),
      buildUserPrompt prompt context = buildUserPromptAmendedSpec prompt context) ∧
    (∀ (prompt : String) (context : List (String × String)),
      (∀ kv ∈ context, kv.2 = "") → buildUserPrompt prompt context = prompt) ∧
    (∀ prompt : String, buildUserPrompt prompt [] = prompt) := by
  refine ⟨?_, ?_, fun _ => rfl⟩
  · intro prompt context
    cases context with
    | nil => rfl
    | cons kv rest => rfl
  · intro prompt context h
    have hf : context.filter (fun kv => kv.2 != "") = [] := by
      rw [List.filter_eq_nil_iff]
      intro a ha
      simp [h a ha]
    cases context with
    | nil => rfl
    | cons kv rest =>
      simp only [buildUserPrompt, List.isEmpty_cons, hf]
      rfl

/-- C7 (witness): the amended theorem's all-empty-values case applied at
prompt `"p"` and context `[("k", "")]`. -/
theorem claimC7_amended_witness : buildUserPrompt "p" [("k", "")] = "p" :=
  claimC7_amended.2.1 "p" [("k", "")] (by decide)

/-- C8: creating a client whose email is already stored fails with
`DuplicateEmailError` and performs no insert — the store is returned
unchanged. -/
theorem claimC8 (st : StoreState) (intake : ClientIntakeRequest)
    (h : ∃ c ∈ st.clients, c.email = intake.email) :
    createClient st intake =
      (st, .error (.duplicateEmail
        ("Client with email " ++ intake.email ++ " already exists"))) := by
  obtain ⟨c, hc, he⟩ := h
  obtain ⟨y, hy⟩ : ∃ y, getClientByEmail st intake.email = some y :=
    find?_some_of_mem hc (by simp [he])
  unfold createClient
  rw [hy]

/-- C8 (witness): the theorem applied to a store already holding
`"a@b.com"` and an intake request with the same email. -/
theorem claimC8_witness :
    createClient exStoreAB exIntakeDup =
      (exStoreAB, .error (.duplicateEmail
        ("Client with email " ++ "a@b.com" ++ " already exists"))) :=
  claimC8 exStoreAB exIntakeDup ⟨exClientAB, by decide, by decide⟩

/-- C9: listing page 2 with page size 5 over a store of exactly 12
clients returns exactly 5 clients — those at indices 5 through 9 in
creation order — together with total count 12. -/
theorem claimC9 (st : StoreState) (h : st.clients.length = 12) :
    (getClientsList st 2 5 none).clients.length = 5 ∧
    (getClientsList st 2 5 none).total = 12 ∧
    ∀ i, i < 5 → (getClientsList st 2 5 none).clients[i]? = st.clients[5 + i]? := by
  refine ⟨?_, ?_, ?_⟩
  · simp [getClientsList, h]
  · simp [getClientsList, h]
  · intro i hi
    simp only [getClientsList]
    rw [List.getElem?_take_of_lt (by omega : i < 5), List.getElem?_drop]

/-- C9 (witness): the theorem applied to a concrete store of 12 clients,
checking the returned length and total and the first returned row. -/
theorem claimC9_witness :
    (getClientsList exStore12 2 5 none).clients.length = 5 ∧
    (getClientsList exStore12 2 5 none).total = 12 ∧
    (getClientsList exStore12 2 5 none).clients[0]? = exStore12.clients[5]? :=
  ⟨(claimC9 exStore12 (by decide)).1, (claimC9 exStore12 (by decide)).2.1,
   (claimC9 exStore12 (by decide)).2.2 0 (by norm_num)⟩

/-- C10: for every content string and client profile the quality score
in fact lies in the tighter interval `[3, 9.5]`, is an integer multiple
of 0.5, and equals the un-clamped raw score — the final clamp to
`[0, 10]` never alters the computed value. -/
theorem claimC10 (content : String) (p : ClientProfile) :
    3 ≤ calculateQualityScore content p ∧ calculateQualityScore content p ≤ 19/2 ∧
    IsHalfIntMult (calculateQualityScore content p) ∧
    calculateQualityScore content p = rawQualityScore content p := by
  have hb := rawQualityScore_bounds content p
  have hclamp := calculateQualityScore_eq_raw content p
  refine ⟨?_, ?_, ?_, hclamp⟩ <;> rw [hclamp]
  · exact hb.1
  · exact hb.2
  · exact rawQualityScore_isHalf content p

end Phoenix
